import Mathlib

/-!
Shallow embedding of the cp-mentor backend core (AI resilience wrapper,
session ledger, credential guard, analytics recorder and the request
orchestration routes), with theorems settling the specification claims.
-/

namespace CpMentor

/-! String containment, modelling JS `String.includes`. -/

/-- Boolean list-prefix test, used to model JS `String.includes`. -/
def startsWithList : List Char → List Char → Bool
  | [], _ => true
  | _ :: _, [] => false
  | a :: as, b :: bs => a == b && startsWithList as bs

/-- Does `pat` occur as a contiguous run inside `s`? -/
def containsAux (pat : List Char) : List Char → Bool
  | [] => pat.isEmpty
  | c :: rest => startsWithList pat (c :: rest) || containsAux pat rest

/-- Model of JS `s.includes(pat)`. -/
def containsSubstr (s pat : String) : Bool :=
  containsAux pat.toList s.toList

/-! AIService (src/unnamed/part_005): fallback ladder and fallback analysis. -/

/-- The fixed fallback-hint ladder of `AIService.getFallbackHint`; the last
entry depends on whether the user has code. -/
def fallbackHints (hasCode : Bool) : List String :=
  [ "Start by understanding what the problem is asking. What are the inputs and expected outputs?",
    "Think about the constraints. What do they tell you about the expected time complexity?",
    "Consider what data structures would be most helpful for efficient lookups or storage.",
    "Break the problem into smaller steps. What would your algorithm do in each step?",
    "Think about edge cases. What happens with minimum or maximum input values?",
    if hasCode then
      "Review your current approach step by step. Are you handling all the requirements?"
    else
      "Time to start coding! Implement your approach and test with the examples." ]

/-- Source `AIService.getFallbackHint(hintNumber, hasCode, platform, difficulty)`:
selects `fallbackHints[min(hintNumber, length - 1)]`. The `platform` and
`difficulty` arguments are accepted but unused, as in the source. -/
def getFallbackHint (hintNumber : Nat) (hasCode : Bool)
    (platform difficulty : String) : String :=
  let _ := platform
  let _ := difficulty
  (fallbackHints hasCode).getD (min hintNumber ((fallbackHints hasCode).length - 1)) ""

/-- Source `AIService.detectLanguage(code)`: keyword-based language detection. -/
def detectLanguage (code : String) : String :=
  if containsSubstr code "def " || containsSubstr code "import " || containsSubstr code "print(" then "python"
  else if containsSubstr code "function" || containsSubstr code "const " || containsSubstr code "let " then "javascript"
  else if containsSubstr code "#include" || containsSubstr code "int main" || containsSubstr code "cout" then "cpp"
  else if containsSubstr code "public class" || containsSubstr code "System.out" then "java"
  else if containsSubstr code "package main" || containsSubstr code "func " then "go"
  else if containsSubstr code "use " || containsSubstr code "fn " then "rust"
  else "unknown"

/-- The nested-loop warning chunk of `getFallbackCodeAnalysis`. -/
def nestedLoopWarning : String :=
  "**Potential Issue:** I see nested loops which might lead to O(n²) time complexity. Consider if there\x27s a more efficient approach.\n\n"

/-- The placeholder-return warning chunk of `getFallbackCodeAnalysis`. -/
def placeholderWarning : String :=
  "**Implementation Status:** You have placeholder return values. Make sure to implement the complete logic.\n\n"

/-- The hash-map praise chunk of `getFallbackCodeAnalysis`. -/
def goodChoiceNote : String :=
  "**Good Choice:** Using hash maps/dictionaries for efficient lookups is often the right approach!\n\n"

/-- The closing chunk of `getFallbackCodeAnalysis`, varying with the platform. -/
def nextStepsNote (isCodeforces : Bool) : String :=
  "**Next Steps:** Test your code with the provided examples and consider edge cases. " ++
    (if isCodeforces then "Remember to check time limits!"
     else "Focus on correctness first, then optimization.")

/-- Model of JS `String.prototype.toUpperCase` (ASCII range, which covers
every `detectLanguage` output). -/
def toUpperCase (s : String) : String :=
  ⟨s.data.map (fun c => if 97 ≤ c.toNat && c.toNat ≤ 122 then Char.ofNat (c.toNat - 32) else c)⟩

/-- Source `AIService.getFallbackCodeAnalysis(userCode, platform)`: rule-based
degraded-mode analysis.  The nested-loop guard in the source tests
`userCode.includes('for') && userCode.includes('for')` — the same condition
twice — which is mirrored here verbatim. -/
def getFallbackCodeAnalysis (userCode platform : String) : String :=
  let language := detectLanguage userCode
  let analysis := "**Code Analysis (" ++ toUpperCase language ++ "):**\n\n"
  let analysis :=
    if containsSubstr userCode "for" && containsSubstr userCode "for" then
      analysis ++ nestedLoopWarning
    else analysis
  let analysis :=
    if containsSubstr userCode "return []" || containsSubstr userCode "return 0" || containsSubstr userCode "return None" then
      analysis ++ placeholderWarning
    else analysis
  let analysis :=
    if containsSubstr userCode "dict" || containsSubstr userCode "\x7b\x7d" || containsSubstr userCode "map" || containsSubstr userCode "unordered_map" then
      analysis ++ goodChoiceNote
    else analysis
  analysis ++ nextStepsNote (platform == "codeforces")

/-! AIService: health state and the generate/analyze operations. -/

/-- Mutable health state of the AI resilience wrapper
(`this.isHealthy`, `this.lastHealthCheck`). -/
structure AIState where
  isHealthy : Bool
  lastHealthCheck : Option Nat
deriving DecidableEq

/-- Source `AIService.healthCheck()`.  Here `probeResult = some txt` models a provider
reply with text `txt`; `none` models a thrown provider error.  The state
becomes healthy iff the trimmed reply contains `"OK"`. -/
def healthCheck (now : Nat) (probeResult : Option String) (st : AIState) : AIState :=
  let _ := st
  match probeResult with
  | some txt => { isHealthy := containsSubstr txt.trim "OK", lastHealthCheck := some now }
  | none => { isHealthy := false, lastHealthCheck := some now }

/-- Should `generateHint`/`analyzeCode` trigger an automatic probe?
Mirrors `!this.isHealthy && this.lastHealthCheck && Date.now() - this.lastHealthCheck > 60000`. -/
def probeDue (now : Nat) (st : AIState) : Bool :=
  !st.isHealthy &&
    (match st.lastHealthCheck with
     | some t => decide (60000 < now - t)
     | none => false)

/-- Options object of `AIService.generateHint`. -/
structure HintOptions where
  problemTitle : String
  problemStatement : String
  platform : String
  difficulty : String
  previousHints : List String
  userCode : String
  userLevel : String
deriving DecidableEq

/-- Source `AIService.generateHint(options)`.  Here `probeResult` is what the automatic
probe would return were it triggered; `providerResult = some txt` models a
successful live call and `none` a thrown provider error, in which case the
deterministic fallback is returned.  Returns the hint together with the
health state after the call; the failure of the live call itself never
touches the health flag in the source. -/
def generateHint (now : Nat) (probeResult providerResult : Option String)
    (opts : HintOptions) (st : AIState) : String × AIState :=
  let st1 := if probeDue now st then healthCheck now probeResult st else st
  match providerResult with
  | some txt => (txt.trim, st1)
  | none =>
      (getFallbackHint opts.previousHints.length (decide (0 < opts.userCode.length))
        opts.platform opts.difficulty, st1)

/-- Options object of `AIService.analyzeCode`. -/
structure AnalyzeOptions where
  problemTitle : String
  userCode : String
  problemStatement : String
  platform : String
  userLevel : String
deriving DecidableEq

/-- Source `AIService.analyzeCode(options)`, shaped like `generateHint`: on a
thrown provider error the rule-based fallback analysis is returned and the
health flag is left untouched. -/
def analyzeCode (now : Nat) (probeResult providerResult : Option String)
    (opts : AnalyzeOptions) (st : AIState) : String × AIState :=
  let st1 := if probeDue now st then healthCheck now probeResult st else st
  match providerResult with
  | some txt => (txt.trim, st1)
  | none => (getFallbackCodeAnalysis opts.userCode opts.platform, st1)

/-! Credential Guard (src/backend/src/models/User.js, middleware/auth.js,
login route in src/unnamed/part_001).  Times are Unix milliseconds.
`bcrypt` comparison is modelled as string equality of the stored and the
candidate password: the hash itself carries no logic the claims depend on. -/

/-- The `security` sub-document of a user. -/
structure Security where
  loginAttempts : Nat
  lockUntil : Option Nat
  passwordChangedAt : Option Nat
deriving DecidableEq

/-- A stored user account (the fields the claims touch). -/
structure User where
  id : String
  email : String
  username : String
  password : String
  security : Security
  isActive : Bool
deriving DecidableEq

/-- Virtual `security.isLocked`: `!!(lockUntil && lockUntil > Date.now())`. -/
def isLocked (now : Nat) (u : User) : Bool :=
  match u.security.lockUntil with
  | some t => decide (now < t)
  | none => false

/-- Source `userSchema.methods.incrementLoginAttempts`, with the configured
`maxLoginAttempts` and `lockoutTime` passed explicitly. -/
def incrementLoginAttempts (now maxAttempts lockoutTime : Nat) (u : User) : User :=
  if (match u.security.lockUntil with
      | some t => decide (t < now)
      | none => false) then
    { u with security := { u.security with lockUntil := none, loginAttempts := 1 } }
  else if decide (maxAttempts ≤ u.security.loginAttempts + 1) && !isLocked now u then
    { u with security :=
        { u.security with
            loginAttempts := u.security.loginAttempts + 1,
            lockUntil := some (now + lockoutTime) } }
  else
    { u with security := { u.security with loginAttempts := u.security.loginAttempts + 1 } }

/-- Source `userSchema.methods.resetLoginAttempts`: unsets `loginAttempts` and
`lockUntil`. -/
def resetLoginAttempts (u : User) : User :=
  { u with security := { u.security with loginAttempts := 0, lockUntil := none } }

/-- Model of JS `String.prototype.toLowerCase` (ASCII range). -/
def toLowerCase (s : String) : String :=
  ⟨s.data.map (fun c => if 65 ≤ c.toNat && c.toNat ≤ 90 then Char.ofNat (c.toNat + 32) else c)⟩

/-- Source `User.findByEmailOrUsername(identifier)`. -/
def findByEmailOrUsername (db : List User) (identifier : String) : Option User :=
  db.find? (fun u => u.email == toLowerCase identifier || u.username == identifier)

/-- Source `User.findById`. -/
def findById (db : List User) (id : String) : Option User :=
  db.find? (fun u => u.id == id)

/-- Replace the stored copy of `u` (keyed by `id`) with `newU`. -/
def updateUser (db : List User) (u newU : User) : List User :=
  db.map (fun x => if x.id == u.id then newU else x)

/-- Request body of `POST /api/auth/login`.  The route reads `identifier`
and `password`; the `checkAccountLock` middleware mounted in front of it
reads `email` and `username`, which the login contract does not carry. -/
structure LoginBody where
  identifier : String
  password : String
  email : Option String
  username : Option String
deriving DecidableEq

/-- Outcome of the login route. -/
inductive LoginResult
  /-- Status 423 from `checkAccountLock`, carrying `ceil((lockUntil - now)/60000)`
  minutes of remaining lock time. -/
  | accountLocked (minutesLeft : Nat)
  /-- Status 401: wrong identifier or password. -/
  | invalidCredentials
  /-- Status 401: account deactivated. -/
  | accountInactive
  /-- Status 200 with a token; the flag records whether `resetLoginAttempts` ran. -/
  | success (attemptsReset : Bool)
deriving DecidableEq

/-- Middleware `checkAccountLock`: looks at `body.email` / `body.username`
only; when both are absent it calls `next()` without any lock check.
Returns `some e` when it short-circuits with error `e`. -/
def checkAccountLock (db : List User) (now : Nat) (body : LoginBody) :
    Option LoginResult :=
  match body.email, body.username with
  | none, none => none
  | e, u =>
    let ident :=
      match e with
      | some v => v
      | none => u.getD ""
    match findByEmailOrUsername db ident with
    | some user =>
        if isLocked now user then
          match user.security.lockUntil with
          | some t => some (.accountLocked ((t - now + 59999) / 60000))
          | none => none
        else none
    | none => none

/-- Route `POST /api/auth/login` (src/unnamed/part_001): `checkAccountLock`, then
lookup by `identifier`, password comparison, active check, attempt reset.
Returns the outcome and the updated user store. -/
def loginRoute (db : List User) (now maxAttempts lockoutTime : Nat)
    (body : LoginBody) : LoginResult × List User :=
  match checkAccountLock db now body with
  | some err => (err, db)
  | none =>
    match findByEmailOrUsername db body.identifier with
    | none => (.invalidCredentials, db)
    | some user =>
      if user.password != body.password then
        (.invalidCredentials,
         updateUser db user (incrementLoginAttempts now maxAttempts lockoutTime user))
      else if !user.isActive then (.accountInactive, db)
      else if decide (0 < user.security.loginAttempts) then
        (.success true, updateUser db user (resetLoginAttempts user))
      else (.success false, db)

/-! Token verification (middleware/auth.js `verifyToken`). -/

/-- Decoded JWT payload: the user id and the issue time `iat` in whole
seconds (`jwt.sign` stamps `iat = floor(issueMillis / 1000)`). -/
structure TokenPayload where
  id : String
  iat : Nat
deriving DecidableEq

/-- Outcome of `verifyToken` after the JWT signature has been decoded. -/
inductive VerifyResult
  | userGone
  | inactive
  /-- Status 401 "User recently changed password! Please log in again." -/
  | superseded
  | ok
deriving DecidableEq

/-- Steps 3–5 of `verifyToken`: user lookup, active check, and the
password-change check `decoded.iat < parseInt(passwordChangedAt/1000)`. -/
def verifyToken (db : List User) (decoded : TokenPayload) : VerifyResult :=
  match findById db decoded.id with
  | none => .userGone
  | some user =>
    if !user.isActive then .inactive
    else
      match user.security.passwordChangedAt with
      | some changedAt =>
          if decide (decoded.iat < changedAt / 1000) then .superseded else .ok
      | none => .ok

/-! Session Ledger (Session model in src/unnamed/part_002 and the
`findOrCreateSession` helper in src/unnamed/part_001). -/

/-- Problem descriptor embedded in a session. -/
structure Problem where
  title : String
  platform : String
  difficulty : String
  statement : String
deriving DecidableEq

/-- One hint record appended to a session. -/
structure Hint where
  content : String
  userCode : String
  codeLength : Nat
  responseTime : Nat
deriving DecidableEq

/-- One code-analysis record appended to a session. -/
structure CodeAnalysis where
  code : String
  analysis : String
  codeLanguage : String
deriving DecidableEq

/-- The `metrics` sub-document of a session. -/
structure SessionMetrics where
  startTime : Nat
  endTime : Option Nat
  duration : Option Nat
  hintsRequested : Nat
  analysesRequested : Nat
  completed : Bool
deriving DecidableEq

/-- Session `status` enum. -/
inductive SessionStatus
  | active
  | completed
  | abandoned
  | error
deriving DecidableEq

/-- User feedback attached to a session. -/
structure Feedback where
  rating : Nat
  comment : String
  submittedAt : Nat
deriving DecidableEq

/-- A stored session document. -/
structure Session where
  sessionId : String
  problem : Problem
  hints : List Hint
  codeAnalyses : List CodeAnalysis
  metrics : SessionMetrics
  feedback : Option Feedback
  status : SessionStatus
  isActive : Bool
  createdAt : Nat
deriving DecidableEq

/-- Source `Session.create` defaults: fresh active session, empty records,
`startTime = createdAt = now`. -/
def mkSession (sessionId : String) (problem : Problem) (now : Nat) : Session :=
  { sessionId := sessionId
    problem := problem
    hints := []
    codeAnalyses := []
    metrics :=
      { startTime := now, endTime := none, duration := none,
        hintsRequested := 0, analysesRequested := 0, completed := false }
    feedback := none
    status := .active
    isActive := true
    createdAt := now }

/-- Virtual `sessionDuration`: `Math.round((endTime - startTime)/1000)` when
ended, else measured against `now`. -/
def sessionDuration (now : Nat) (s : Session) : Nat :=
  match s.metrics.endTime with
  | some t => (t - s.metrics.startTime + 500) / 1000
  | none => (now - s.metrics.startTime + 500) / 1000

/-- Source `sessionSchema.methods.addHint`: pushes the record and recomputes
`metrics.hintsRequested` from the array length. -/
def addHint (h : Hint) (s : Session) : Session :=
  { s with
      hints := s.hints ++ [h],
      metrics := { s.metrics with hintsRequested := (s.hints ++ [h]).length } }

/-- Source `sessionSchema.methods.addCodeAnalysis`. -/
def addCodeAnalysis (a : CodeAnalysis) (s : Session) : Session :=
  { s with
      codeAnalyses := s.codeAnalyses ++ [a],
      metrics := { s.metrics with analysesRequested := (s.codeAnalyses ++ [a]).length } }

/-- Source `sessionSchema.methods.endSession(completed)`: unconditionally stamps
`endTime = now`, recomputes `duration`, sets `completed`, `status` and
`isActive`. -/
def endSession (now : Nat) (completed : Bool) (s : Session) : Session :=
  let s1 := { s with metrics := { s.metrics with endTime := some now } }
  { s1 with
      metrics :=
        { s1.metrics with
            duration := some (sessionDuration now s1),
            completed := completed },
      status := if completed then .completed else .abandoned,
      isActive := false }

/-- Source `sessionSchema.methods.addFeedback`. -/
def addFeedback (now : Nat) (rating : Nat) (comment : String) (s : Session) : Session :=
  { s with feedback := some { rating := rating, comment := comment, submittedAt := now } }

/-- Source `Session.cleanupAbandonedSessions`: every `active` session created
before `now - 2h` becomes `abandoned` and inactive — `endTime` is not
touched. -/
def cleanupAbandonedSessions (now : Nat) (db : List Session) : List Session :=
  db.map (fun s =>
    if s.status == .active && decide (s.createdAt < now - 7200000) then
      { s with status := .abandoned, isActive := false }
    else s)

/-- Helper `findOrCreateSession(req, problemData)` from the AI routes: when the
client supplied a correlation id that resolves to an active session it is
returned with the store untouched; otherwise a session is created under
the supplied id (or the fresh id when none was supplied). -/
def findOrCreateSession (db : List Session) (sid : Option String)
    (problem : Problem) (now : Nat) (freshId : String) : Session × List Session :=
  match sid with
  | some x =>
    match db.find? (fun s => s.sessionId == x && s.isActive) with
    | some sess => (sess, db)
    | none =>
        let ns := mkSession x problem now
        (ns, db ++ [ns])
  | none =>
      let ns := mkSession freshId problem now
      (ns, db ++ [ns])

/-! Request orchestration: POST /api/ai/generate-hint (src/unnamed/part_001).

The handler wraps the whole pipeline in one `try`: session resolution, AI
call, `session.addHint`, stats update and `Analytics.recordEvent` are all
awaited inside it, and any rejection reaches the `catch`, which calls
`next(error)` — the request then fails through the error handler.  The
outcome model below records, for each awaited persistence step, whether it
succeeded. -/

/-- What the route hands back to the client. -/
inductive RouteOutcome
  /-- 200 with the hint payload. -/
  | success (hint : String) (hintNumber : Nat)
  /-- Outcome `next(error)`: the request fails through the error handler. -/
  | error
deriving DecidableEq

/-- Route `POST /api/ai/generate-hint`: here `sessionOk`, `addHintOk` and `recordOk`
model the awaited session resolution, `session.addHint` write and
`Analytics.recordEvent` call; the AI call itself is total (on provider
failure `generateHint` returns the fallback). -/
def generateHintRoute (now : Nat) (sessionOk : Bool)
    (probeResult providerResult : Option String) (opts : HintOptions)
    (addHintOk recordOk : Bool) (st : AIState) : RouteOutcome × AIState :=
  if !sessionOk then (.error, st)
  else
    let (hint, st1) := generateHint now probeResult providerResult opts st
    if !addHintOk then (.error, st1)
    else if !recordOk then (.error, st1)
    else (.success hint (opts.previousHints.length + 1), st1)

/-! Session operations as a reachability relation (for the ledger invariant). -/

/-- The per-session public mutators of the Session Ledger other than the
abandonment sweep. -/
inductive SessionOp
  | appendHint (h : Hint)
  | appendAnalysis (a : CodeAnalysis)
  | endOp (now : Nat) (completed : Bool)
  | feedback (now : Nat) (rating : Nat) (comment : String)

/-- Apply one ledger operation to a session. -/
def applyOp (op : SessionOp) (s : Session) : Session :=
  match op with
  | .appendHint h => addHint h s
  | .appendAnalysis a => addCodeAnalysis a s
  | .endOp now completed => endSession now completed s
  | .feedback now rating comment => addFeedback now rating comment s

/-- Apply a sequence of ledger operations. -/
def applyOps (ops : List SessionOp) (s : Session) : Session :=
  ops.foldl (fun acc op => applyOp op acc) s

/-- The ledger invariant of the spec: a non-active session has its
`endTime` set. -/
def endTimeInvariant (s : Session) : Prop :=
  s.status ≠ .active → s.metrics.endTime ≠ none

instance (s : Session) : Decidable (endTimeInvariant s) := by
  unfold endTimeInvariant; infer_instance

/-! Concurrent appends (`session.addHint` is a load / modify / save on a
document copy; Mongoose `save` writes the copy back).  A trace interleaves
`load w` and `save w` events of the workers; each worker loads the stored
document into its own copy and later saves its modified copy back. -/

/-- One scheduler event of a concurrent-append execution. -/
inductive AppendEvent
  | load (w : Nat)
  | save (w : Nat)

/-- Execution state: the stored document plus each worker's loaded copy. -/
structure ApplyState where
  stored : Session
  regs : Nat → Option Session

/-- Semantics of one event: `load` copies the stored document into the
worker's register; `save` writes back the worker's copy with its hint
appended (the in-memory `push` + `save()` of `addHint`). -/
def stepAppend (hintOf : Nat → Hint) (st : ApplyState) : AppendEvent → ApplyState
  | .load w => { st with regs := fun i => if i = w then some st.stored else st.regs i }
  | .save w =>
    match st.regs w with
    | some copy => { st with stored := addHint (hintOf w) copy }
    | none => st

/-- Run a trace from an initial stored session; all registers start empty. -/
def runTrace (hintOf : Nat → Hint) (init : Session) (trace : List AppendEvent) : Session :=
  (trace.foldl (stepAppend hintOf) { stored := init, regs := fun _ => none }).stored

/-! Theorems about the fallback ladder. -/

/-- Unfolding lemma: the ladder is indexed by `min hintNumber 5`. -/
lemma getFallbackHint_eq_getD (i : Nat) (b : Bool) (p d : String) :
    getFallbackHint i b p d = (fallbackHints b).getD (min i 5) "" := by
  cases b <;> rfl

/-- No ladder entry is the empty string. -/
lemma getFallbackHint_ne_empty (i : Nat) (b : Bool) (p d : String) :
    getFallbackHint i b p d ≠ "" := by
  rw [getFallbackHint_eq_getD]
  rcases Nat.lt_or_ge i 6 with h | h
  · interval_cases i <;> cases b <;> decide
  · rw [Nat.min_eq_right (by omega : 5 ≤ i)]
    cases b <;> decide

/-- Claim C3: when the provider call fails, `generateHint` returns the
deterministic fallback `fallbackHints[min(hintIndex, N-1)]` (a total
function — no exception can propagate), which is never empty; the six
ladder entries are pairwise distinct, and every `hintIndex ≥ 5` yields the
last entry. -/
theorem hint_fallback_ladder :
    (∀ (now : Nat) (probe : Option String) (opts : HintOptions) (st : AIState),
        (generateHint now probe none opts st).1
          = getFallbackHint opts.previousHints.length
              (decide (0 < opts.userCode.length)) opts.platform opts.difficulty
        ∧ (generateHint now probe none opts st).1 ≠ "")
  ∧ (∀ (i j : Nat) (b : Bool) (p d : String), i < 6 → j < 6 → i ≠ j →
        getFallbackHint i b p d ≠ getFallbackHint j b p d)
  ∧ (∀ (i : Nat) (b : Bool) (p d : String), 5 ≤ i →
        getFallbackHint i b p d = getFallbackHint 5 b p d) := by
  refine ⟨fun now probe opts st => ⟨rfl, ?_⟩, ?_, ?_⟩
  · exact getFallbackHint_ne_empty opts.previousHints.length
      (decide (0 < opts.userCode.length)) opts.platform opts.difficulty
  · intro i j b p d hi hj hne
    rw [getFallbackHint_eq_getD i b p d, getFallbackHint_eq_getD j b p d]
    interval_cases i <;> interval_cases j <;>
      first
      | exact absurd rfl hne
      | cases b <;> decide
  · intro i b p d h
    rw [getFallbackHint_eq_getD i b p d, Nat.min_eq_right h]
    rfl

/-- Witness for C3 at concrete inputs. -/
theorem hint_fallback_ladder_spot :
    getFallbackHint 2 true "leetcode" "Medium" ≠ getFallbackHint 4 true "leetcode" "Medium"
  ∧ getFallbackHint 9 false "codeforces" "800" = getFallbackHint 5 false "codeforces" "800"
  ∧ (generateHint 0 none none ⟨"Two Sum", "", "leetcode", "Easy", [], "", "intermediate"⟩
      ⟨false, some 0⟩).1 ≠ "" :=
  ⟨hint_fallback_ladder.2.1 2 4 true "leetcode" "Medium" (by decide) (by decide) (by decide),
   hint_fallback_ladder.2.2 9 false "codeforces" "800" (by decide),
   (hint_fallback_ladder.1 0 none ⟨"Two Sum", "", "leetcode", "Easy", [], "", "intermediate"⟩
      ⟨false, some 0⟩).2⟩

/-! Theorems about the degraded-mode code analysis. -/

/-- Proof-structuring view of `getFallbackCodeAnalysis`: the output is
assembled from the detected language and the three pattern flags. -/
def assembleAnalysis (lang : String) (hasFor hasPlaceholder hasDict isCF : Bool) : String :=
  let analysis := "**Code Analysis (" ++ toUpperCase lang ++ "):**\n\n"
  let analysis := if hasFor then analysis ++ nestedLoopWarning else analysis
  let analysis := if hasPlaceholder then analysis ++ placeholderWarning else analysis
  let analysis := if hasDict then analysis ++ goodChoiceNote else analysis
  analysis ++ nextStepsNote isCF

/-- Unfolding lemma relating the source function to the assembled view. -/
lemma getFallbackCodeAnalysis_eq (code platform : String) :
    getFallbackCodeAnalysis code platform
      = assembleAnalysis (detectLanguage code)
          (containsSubstr code "for" && containsSubstr code "for")
          (containsSubstr code "return []" || containsSubstr code "return 0"
            || containsSubstr code "return None")
          (containsSubstr code "dict" || containsSubstr code "\x7b\x7d"
            || containsSubstr code "map" || containsSubstr code "unordered_map")
          (platform == "codeforces") := rfl

/-- The language detector has exactly seven possible outputs. -/
lemma detectLanguage_mem (code : String) :
    detectLanguage code ∈ ["python", "javascript", "cpp", "java", "go", "rust", "unknown"] := by
  unfold detectLanguage
  split_ifs <;> simp

/-- Shape facts about the assembled analysis, by finite case analysis. -/
lemma assembleAnalysis_props (lang : String)
    (hlang : lang ∈ ["python", "javascript", "cpp", "java", "go", "rust", "unknown"])
    (b1 b2 b3 pf : Bool) :
    assembleAnalysis lang b1 b2 b3 pf ≠ ""
  ∧ containsSubstr (assembleAnalysis lang b1 b2 b3 pf) "Next Steps" = true
  ∧ containsSubstr (assembleAnalysis lang b1 b2 b3 pf) "nested loops" = b1 := by
  fin_cases hlang <;> cases b1 <;> cases b2 <;> cases b3 <;> cases pf <;> decide

/-- Claim C10: for every input, the degraded-mode analysis is a non-empty
string that contains a Next Steps section; its nested-loop warning appears
exactly when the code contains the substring `"for"` at least once (the
guard conjoins the same test with itself, `Bool.and_self`). -/
theorem fallback_analysis_shape (code platform : String) :
    getFallbackCodeAnalysis code platform ≠ ""
  ∧ containsSubstr (getFallbackCodeAnalysis code platform) "Next Steps" = true
  ∧ containsSubstr (getFallbackCodeAnalysis code platform) "nested loops"
      = containsSubstr code "for" := by
  have h := assembleAnalysis_props (detectLanguage code) (detectLanguage_mem code)
    (containsSubstr code "for" && containsSubstr code "for")
    (containsSubstr code "return []" || containsSubstr code "return 0"
      || containsSubstr code "return None")
    (containsSubstr code "dict" || containsSubstr code "\x7b\x7d"
      || containsSubstr code "map" || containsSubstr code "unordered_map")
    (platform == "codeforces")
  rw [getFallbackCodeAnalysis_eq]
  refine ⟨h.1, h.2.1, ?_⟩
  rw [h.2.2, Bool.and_self]

/-! Theorems about the health state machine. -/

/-- Claim C4 counterexample: from a `Healthy` state, a failed live provider
call in `generateHint` leaves the state exactly as it was — the claimed
transition to `Degraded` (healthy = false) does not happen. -/
theorem failed_call_keeps_healthy :
    (generateHint 100000 none none
        ⟨"Two Sum", "", "leetcode", "Easy", [], "", "intermediate"⟩
        ⟨true, some 0⟩).2 = ⟨true, some 0⟩ := rfl

/-- Claim C4 as amended: the health flag changes only through
`healthCheck`.  When the wrapper is `Healthy` no automatic probe is due,
and whenever no probe is due, `generateHint` and `analyzeCode` return the
state unchanged — in particular a failed live call never degrades it; when
a probe is due they change the state exactly by running `healthCheck`,
which classifies a thrown probe as `Degraded` and an answered probe by
whether the trimmed reply contains `"OK"`. -/
theorem health_state_transitions :
    (∀ (now : Nat) (st : AIState), st.isHealthy = true → probeDue now st = false)
  ∧ (∀ (now : Nat) (probe provider : Option String) (opts : HintOptions) (st : AIState),
        probeDue now st = false → (generateHint now probe provider opts st).2 = st)
  ∧ (∀ (now : Nat) (probe provider : Option String) (opts : HintOptions) (st : AIState),
        probeDue now st = true →
          (generateHint now probe provider opts st).2 = healthCheck now probe st)
  ∧ (∀ (now : Nat) (probe provider : Option String) (opts : AnalyzeOptions) (st : AIState),
        probeDue now st = false → (analyzeCode now probe provider opts st).2 = st)
  ∧ (∀ (now : Nat) (probe provider : Option String) (opts : AnalyzeOptions) (st : AIState),
        probeDue now st = true →
          (analyzeCode now probe provider opts st).2 = healthCheck now probe st)
  ∧ (∀ (now : Nat) (st : AIState), (healthCheck now none st).isHealthy = false)
  ∧ (∀ (now : Nat) (txt : String) (st : AIState),
        (healthCheck now (some txt) st).isHealthy = containsSubstr txt.trim "OK") := by
  refine ⟨?_, ?_, ?_, ?_, ?_, fun now st => rfl, fun now txt st => rfl⟩
  · intro now st h
    simp [probeDue, h]
  · intro now probe provider opts st h
    cases provider <;> simp [generateHint, h]
  · intro now probe provider opts st h
    cases provider <;> simp [generateHint, h]
  · intro now probe provider opts st h
    cases provider <;> simp [analyzeCode, h]
  · intro now probe provider opts st h
    cases provider <;> simp [analyzeCode, h]

/-- Witness for C4 at concrete inputs. -/
theorem health_state_transitions_spot :
    probeDue 100000 ⟨true, some 0⟩ = false
  ∧ (generateHint 100000 none none
      ⟨"Two Sum", "", "leetcode", "Easy", [], "", "intermediate"⟩ ⟨true, some 0⟩).2
      = ⟨true, some 0⟩
  ∧ (analyzeCode 100000 (some "stub") none
      ⟨"Two Sum", "x", "", "leetcode", "intermediate"⟩ ⟨false, some 0⟩).2
      = healthCheck 100000 (some "stub") ⟨false, some 0⟩ :=
  ⟨health_state_transitions.1 100000 ⟨true, some 0⟩ rfl,
   health_state_transitions.2.1 100000 none none
     ⟨"Two Sum", "", "leetcode", "Easy", [], "", "intermediate"⟩ ⟨true, some 0⟩ (by decide),
   health_state_transitions.2.2.2.2.1 100000 (some "stub") none
     ⟨"Two Sum", "x", "", "leetcode", "intermediate"⟩ ⟨false, some 0⟩ (by decide)⟩

/-! Theorems about token invalidation. -/

/-- Claim C2 counterexample: a token issued at `t0 = 1000` ms (`iat = 1000
/ 1000`), with the password changed at `t1 = 1500 > t0`, is accepted —
whole-second truncation makes `iat < floor(t1/1000)` false, so the
verification does not fail with `Superseded`. -/
theorem same_second_change_token_accepted :
    (1000 : Nat) < 1500
  ∧ verifyToken [⟨"u2", "bob@x.com", "bob", "pw", ⟨0, none, some 1500⟩, true⟩]
      ⟨"u2", 1000 / 1000⟩ = .ok
  ∧ verifyToken [⟨"u2", "bob@x.com", "bob", "pw", ⟨0, none, some 1500⟩, true⟩]
      ⟨"u2", 1000 / 1000⟩ ≠ .superseded := by decide

/-- Claim C2 as amended: `verifyToken` compares whole seconds.  For an
existing active account whose password changed at `t1`, a token issued at
`t0` is rejected with `Superseded` exactly when `floor(t0/1000) <
floor(t1/1000)`; a change elsewhere in the same truncated second leaves
the old token accepted. -/
theorem password_change_supersedes_token (db : List User) (u : User) (id : String)
    (t0 t1 : Nat) (hfind : findById db id = some u) (hact : u.isActive = true)
    (hch : u.security.passwordChangedAt = some t1) :
    (t0 / 1000 < t1 / 1000 → verifyToken db ⟨id, t0 / 1000⟩ = .superseded)
  ∧ (¬ t0 / 1000 < t1 / 1000 → verifyToken db ⟨id, t0 / 1000⟩ = .ok) := by
  constructor <;> intro h <;> simp [verifyToken, hfind, hact, hch, h]

/-- Witness for C2 at concrete inputs. -/
theorem password_change_supersedes_token_spot :
    verifyToken [⟨"u2", "bob@x.com", "bob", "pw", ⟨0, none, some 2600⟩, true⟩]
      ⟨"u2", 1000 / 1000⟩ = .superseded :=
  (password_change_supersedes_token
      [⟨"u2", "bob@x.com", "bob", "pw", ⟨0, none, some 2600⟩, true⟩]
      ⟨"u2", "bob@x.com", "bob", "pw", ⟨0, none, some 2600⟩, true⟩
      "u2" 1000 2600 (by decide) rfl rfl).1 (by decide)

/-! Theorems about the analytics recording path of the hint route. -/

/-- Claim C5 counterexample: session resolution, hint production and the
session append all succeed, the analytics record fails — and the request
fails through the error handler instead of returning its success
response. -/
theorem record_failure_fails_request :
    (generateHintRoute 0 true none (some "Consider a hash map.")
        ⟨"Two Sum", "", "leetcode", "Easy", [], "", "intermediate"⟩
        true false ⟨true, some 0⟩).1 = .error := rfl

/-- Claim C5 as amended: `Analytics.recordEvent` is awaited inside the
route's `try` block before the success response, so its failure sends the
request down the `catch`/`next(error)` path; only when it succeeds does
the route answer 200 with the produced hint. -/
theorem record_failure_propagates (now : Nat) (probe provider : Option String)
    (opts : HintOptions) (st : AIState) :
    (generateHintRoute now true probe provider opts true false st).1 = .error
  ∧ (generateHintRoute now true probe provider opts true true st).1
      = .success (generateHint now probe provider opts st).1
          (opts.previousHints.length + 1) := by
  constructor <;> simp [generateHintRoute]

/-! Theorems about the session ledger. -/

/-- Preservation: each ledger mutator keeps the end-time invariant. -/
lemma endTimeInvariant_applyOp (op : SessionOp) (s : Session)
    (h : endTimeInvariant s) : endTimeInvariant (applyOp op s) := by
  cases op with
  | appendHint hh => simpa [applyOp, addHint, endTimeInvariant] using h
  | appendAnalysis a => simpa [applyOp, addCodeAnalysis, endTimeInvariant] using h
  | endOp now c => intro _; simp [applyOp, endSession]
  | feedback now r cmt => simpa [applyOp, addFeedback, endTimeInvariant] using h

/-- Preservation lifted to operation sequences. -/
lemma endTimeInvariant_applyOps (ops : List SessionOp) (s : Session)
    (h : endTimeInvariant s) : endTimeInvariant (applyOps ops s) := by
  induction ops generalizing s with
  | nil => simpa [applyOps] using h
  | cons op rest ih =>
      simp only [applyOps, List.foldl_cons] at *
      exact ih (applyOp op s) (endTimeInvariant_applyOp op s h)

/-- Claim C6 counterexample: a session created through `findOrCreateSession`
and then swept by `cleanupAbandonedSessions` ends up `abandoned` with
`endTime` unset — the sweep violates the invariant. -/
theorem sweep_breaks_endTime_invariant :
    cleanupAbandonedSessions 10000000
        (findOrCreateSession [] (some "s-1") ⟨"Two Sum", "leetcode", "Easy", ""⟩ 0 "s-1").2
      = [{ mkSession "s-1" ⟨"Two Sum", "leetcode", "Easy", ""⟩ 0 with
            status := SessionStatus.abandoned, isActive := false }]
  ∧ ¬ endTimeInvariant ({ mkSession "s-1" ⟨"Two Sum", "leetcode", "Easy", ""⟩ 0 with
            status := SessionStatus.abandoned, isActive := false }) := by
  constructor
  · rfl
  · intro hinv
    exact hinv (by decide) rfl

/-- Claim C6 as amended: every session reachable from creation through the
per-session operations (append hint, append analysis, end, feedback)
satisfies the invariant `status ≠ active → endTime set`; the abandonment
sweep is the one operation that breaks it. -/
theorem ledger_ops_preserve_endTime (ops : List SessionOp) (sid : String)
    (pd : Problem) (t : Nat) :
    endTimeInvariant (applyOps ops (mkSession sid pd t)) := by
  apply endTimeInvariant_applyOps
  intro h
  simp [mkSession] at h

/-- Claim C7 counterexample: re-ending an already-completed session at a
later time overwrites its `endTime` (5000 instead of the original 1000),
so `end` is not idempotent on an ended session. -/
theorem reend_overwrites_endTime :
    (endSession 1000 true (mkSession "s-1" ⟨"Two Sum", "leetcode", "Easy", ""⟩ 0)).status
      = .completed
  ∧ (endSession 1000 true (mkSession "s-1" ⟨"Two Sum", "leetcode", "Easy", ""⟩ 0)).metrics.endTime
      = some 1000
  ∧ (endSession 5000 true (endSession 1000 true
        (mkSession "s-1" ⟨"Two Sum", "leetcode", "Easy", ""⟩ 0))).metrics.endTime
      = some 5000
  ∧ some (5000 : Nat) ≠ some 1000 := by decide

/-- Claim C7 as amended: `endSession` unconditionally overwrites `endTime`
with the call time, recomputes `duration` and sets `status` from the flag;
it is idempotent only when repeated with the same timestamp and the same
flag. -/
theorem endSession_overwrites (now : Nat) (c : Bool) (s : Session) :
    endSession now c (endSession now c s) = endSession now c s
  ∧ (endSession now c s).metrics.endTime = some now
  ∧ (endSession now c s).status = (if c then .completed else .abandoned)
  ∧ (endSession now c s).metrics.duration
      = some ((now - s.metrics.startTime + 500) / 1000) :=
  ⟨rfl, rfl, rfl, rfl⟩

/-- Claim C8: when the correlation id resolves to an existing active
session, `findOrCreateSession` returns that session and leaves the store
untouched, and a repeated call returns the very same session again with
the store still untouched — no new record, no overwritten descriptor. -/
theorem findOrCreate_idempotent (db : List Session) (x : String) (pd pd2 : Problem)
    (now now2 : Nat) (fid fid2 : String) (s : Session)
    (hfind : db.find? (fun t => t.sessionId == x && t.isActive) = some s) :
    findOrCreateSession db (some x) pd now fid = (s, db)
  ∧ findOrCreateSession (findOrCreateSession db (some x) pd now fid).2
      (some x) pd2 now2 fid2 = (s, db) := by
  constructor <;> simp [findOrCreateSession, hfind]

/-- Witness for C8 at concrete inputs. -/
theorem findOrCreate_idempotent_spot :
    findOrCreateSession [mkSession "X" ⟨"Two Sum", "leetcode", "Easy", ""⟩ 5] (some "X")
        ⟨"Other", "codeforces", "hard", ""⟩ 99 "fresh"
      = (mkSession "X" ⟨"Two Sum", "leetcode", "Easy", ""⟩ 5,
         [mkSession "X" ⟨"Two Sum", "leetcode", "Easy", ""⟩ 5]) :=
  (findOrCreate_idempotent [mkSession "X" ⟨"Two Sum", "leetcode", "Easy", ""⟩ 5] "X"
      ⟨"Other", "codeforces", "hard", ""⟩ ⟨"Other", "codeforces", "hard", ""⟩ 99 99
      "fresh" "fresh" (mkSession "X" ⟨"Two Sum", "leetcode", "Easy", ""⟩ 5) rfl).1

/-- Claim C9: `addHint` is a load / in-memory push / whole-document save.
With two concurrent appends interleaved load₀, load₁, save₀, save₁ the
second save overwrites the first: the final session holds one hint and
`hintsRequested = 1`, not 2 — a lost update; the serialized order does
give 2. -/
theorem concurrent_append_lost_update :
    (runTrace (fun _ => ⟨"hint", "", 0, 0⟩)
        (mkSession "s-1" ⟨"Two Sum", "leetcode", "Easy", ""⟩ 0)
        [.load 0, .load 1, .save 0, .save 1]).metrics.hintsRequested = 1
  ∧ (runTrace (fun _ => ⟨"hint", "", 0, 0⟩)
        (mkSession "s-1" ⟨"Two Sum", "leetcode", "Easy", ""⟩ 0)
        [.load 0, .load 1, .save 0, .save 1]).hints.length = 1
  ∧ (runTrace (fun _ => ⟨"hint", "", 0, 0⟩)
        (mkSession "s-1" ⟨"Two Sum", "leetcode", "Easy", ""⟩ 0)
        [.load 0, .save 0, .load 1, .save 1]).metrics.hintsRequested = 2 :=
  ⟨rfl, rfl, rfl⟩

/-! Theorems about the login lockout path. -/

/-- The single-account store of the lockout scenario. -/
def aliceStart : List User :=
  [⟨"u1", "alice@x.com", "alice", "password123", ⟨0, none, none⟩, true⟩]

/-- One wrong-password login against the store at time 1000000, with the
configured `maxLoginAttempts = 5` and `lockoutTime = 1800000` ms. -/
def wrongLogin (db : List User) : List User :=
  (loginRoute db 1000000 5 1800000 ⟨"alice@x.com", "wrongpass", none, none⟩).2

/-- Claim C1: five consecutive wrong-password logins do set
`lockUntil` (second half of the claim holds), and the account is locked at
time 1900000 — yet the sixth login with the correct password succeeds and
even resets the lock, because `checkAccountLock` reads `body.email` /
`body.username` while the login contract carries only `identifier`, so the
lock check never fires on this route. -/
theorem login_lock_bypass :
    wrongLogin (wrongLogin (wrongLogin (wrongLogin (wrongLogin aliceStart))))
      = [⟨"u1", "alice@x.com", "alice", "password123", ⟨5, some 2800000, none⟩, true⟩]
  ∧ isLocked 1900000
      ⟨"u1", "alice@x.com", "alice", "password123", ⟨5, some 2800000, none⟩, true⟩ = true
  ∧ checkAccountLock
      [⟨"u1", "alice@x.com", "alice", "password123", ⟨5, some 2800000, none⟩, true⟩]
      1900000 ⟨"alice@x.com", "password123", none, none⟩ = none
  ∧ (loginRoute
      [⟨"u1", "alice@x.com", "alice", "password123", ⟨5, some 2800000, none⟩, true⟩]
      1900000 5 1800000 ⟨"alice@x.com", "password123", none, none⟩).1 = .success true := by
  refine ⟨rfl, rfl, rfl, rfl⟩

end CpMentor
